import Mathlib

/-!
Shallow embedding of the inference serving gateway of
src/infra/services/model_server/model_server.py.

The Python module holds two process-wide globals, tokenizer and model,
both None until a load succeeds.  The Model Runtime (transformers) is an
external collaborator, so it is embedded as a record of abstract
functions.  Fallible Python calls (from_pretrained, generate, ...) become
Except values; an exception escaping a Python function becomes an error
component of the embedded result.  Handlers that assign no global are
embedded as state-preserving functions.
-/

namespace ModelServer

/-- Opaque runtime handles (tokenizer and model objects) are abstracted
as natural numbers: the server never inspects them. -/
abbrev Handle := Nat

/-- Token tensors passed between tokenizer and model are abstracted as
lists of naturals: the server never inspects them either. -/
abbrev Tokens := List Nat

/-- Environment configuration read at module import:
MODEL_DIR = os.getenv("MODEL_DIR", "/models") and
MODEL_NAME = os.getenv("MODEL_NAME", "your-model-folder").
PORT plays no role in the embedded claims. -/
structure Env where
  MODEL_DIR : String := "/models"
  MODEL_NAME : String := "your-model-folder"

/-- The external Model Runtime collaborator.  loadTokenizer embeds
AutoTokenizer.from_pretrained, loadCausalLM embeds
AutoModelForCausalLM.from_pretrained, tokenize embeds the
tokenizer call on a prompt, generate embeds model.generate with
arguments max_new_tokens, do_sample and temperature, and decode embeds
tokenizer.decode.  Each may fail (a Python exception), hence Except. -/
structure Runtime where
  loadTokenizer : String → Except String Handle
  loadCausalLM : String → Except String Handle
  tokenize : Handle → String → Except String Tokens
  generate : Handle → Tokens → Int → Bool → ℚ → Except String Tokens
  decode : Handle → Tokens → Except String String
deriving Inhabited

/-- The two module-level globals of model_server.py, each None until
assigned by load_model. -/
structure ServerState where
  tokenizer : Option Handle
  model : Option Handle
deriving DecidableEq, Repr

/-- os.path.join(MODEL_DIR, MODEL_NAME) for the common case of a
relative MODEL_NAME. -/
def modelPath (env : Env) : String :=
  env.MODEL_DIR ++ "/" ++ env.MODEL_NAME

/-- Result of one call to load_model: the globals afterwards, the
exception that escaped the call (None when it returned normally), and
how many times the body past the early-return guard ran, i.e. how many
underlying runtime load attempts this call performed (0 or 1). -/
structure LoadResult where
  state : ServerState
  thrown : Option String
  loads : Nat
deriving DecidableEq, Repr

/-- Embedding of load_model.  The source reads:
if model is not None: return, then
tokenizer = AutoTokenizer.from_pretrained(model_path, ...), then
model = AutoModelForCausalLM.from_pretrained(model_path, ...).
There is no try/except: a failing from_pretrained call raises out of
load_model.  When the tokenizer load raises, neither global was
assigned; when the model load raises, the tokenizer global was already
assigned.  model.eval() and the log lines have no effect on the state. -/
def load_model (env : Env) (rt : Runtime) (s : ServerState) : LoadResult :=
  if s.model.isSome then
    { state := s, thrown := none, loads := 0 }
  else
    match rt.loadTokenizer (modelPath env) with
    | .error e => { state := s, thrown := some e, loads := 1 }
    | .ok tok =>
      match rt.loadCausalLM (modelPath env) with
      | .error e =>
        { state := { tokenizer := some tok, model := s.model },
          thrown := some e, loads := 1 }
      | .ok m =>
        { state := { tokenizer := some tok, model := some m },
          thrown := none, loads := 1 }

/-- Embedding of run_inference_sync.  The source reads:
inputs = tokenizer(prompt, ...); out = model.generate(inputs,
max_new_tokens=max_tokens, do_sample=(temperature>0),
temperature=temperature); text = tokenizer.decode(out[0], ...).
Calling the globals while they are None raises a TypeError, embedded as
an error. -/
def run_inference_sync (rt : Runtime) (s : ServerState)
    (prompt : String) (max_tokens : Int) (temperature : ℚ) :
    Except String String :=
  match s.tokenizer, s.model with
  | some tok, some m =>
    match rt.tokenize tok prompt with
    | .error e => .error e
    | .ok inputs =>
      match rt.generate m inputs max_tokens (decide (temperature > 0)) temperature with
      | .error e => .error e
      | .ok out => rt.decode tok out
  | _, _ => .error "TypeError: NoneType object is not callable"

/-- Pydantic schema InferRequest: prompt is a required str (any string,
the empty one included), max_tokens an int with default 512 (any int,
nonpositive ones included), temperature a float with default 0.0,
embedded as a rational. -/
structure InferRequest where
  prompt : String
  max_tokens : Int := 512
  temperature : ℚ := 0
deriving DecidableEq, Repr

/-- Errors the infer handler can surface: HTTPException(503) when the
model global is None, and the unhandled exception of a failing runtime
call, which the framework surfaces as a 500 response. -/
inductive InferError where
  | notReady
  | compute (detail : String)
deriving DecidableEq, Repr

/-- Pydantic schema InferResponse: model name, output text, and the
meta mapping, which the handler populates with the single key tokens. -/
structure InferResponse where
  model : String
  output : String
  tokens : Nat
deriving DecidableEq, Repr

/-- The whitespace class of the Python str.split() used by the handler,
restricted to the ASCII whitespace characters. -/
def isPyWhitespace (c : Char) : Bool :=
  c == ' ' || c == '\t' || c == '\n' || c == '\x0d' || c == '\x0b' || c == '\x0c'

/-- Word accumulator for the Python str.split() embedding: walks the
characters, collecting the current maximal non-whitespace run in acc
(reversed) and emitting it when a whitespace character or the end of
the string closes it. -/
def pyWordsAux : List Char → List Char → List String
  | [], acc => if acc.isEmpty then [] else [String.mk acc.reverse]
  | c :: cs, acc =>
    if isPyWhitespace c then
      if acc.isEmpty then pyWordsAux cs []
      else String.mk acc.reverse :: pyWordsAux cs []
    else pyWordsAux cs (c :: acc)

/-- Python output.split(): the list of maximal non-whitespace
substrings of the string, in order. -/
def pySplit (s : String) : List String :=
  pyWordsAux s.data []

/-- Embedding of the infer handler.  The source reads:
if model is None: raise HTTPException(status_code=503, ...), then
output = run_inference_sync(req.prompt, req.max_tokens,
req.temperature) on an executor, then
return InferResponse(model=MODEL_NAME, output=output,
meta=dict tokens len(output.split())).
No other check is performed on the request; the handler assigns no
global. -/
def infer (env : Env) (rt : Runtime) (s : ServerState) (req : InferRequest) :
    Except InferError InferResponse :=
  if s.model.isNone then .error .notReady
  else
    match run_inference_sync rt s req.prompt req.max_tokens req.temperature with
    | .error e => .error (.compute e)
    | .ok output =>
      .ok { model := env.MODEL_NAME, output := output,
            tokens := (pySplit output).length }

/-- Response of the health handler. -/
structure HealthResponse where
  ok : Bool
deriving DecidableEq, Repr

/-- Embedding of the health handler.  The source reads:
return dict ok True.  It does not read the globals at all. -/
def health (_s : ServerState) : HealthResponse :=
  { ok := true }

/-- An externally visible operation on the running server process:
the startup hook (which calls load_model), a GET on health, or a POST
on infer. -/
inductive Op where
  | load
  | health
  | infer (req : InferRequest)
deriving DecidableEq, Repr

/-- Observable output of one operation. -/
inductive Output where
  | load (thrown : Option String)
  | health (r : HealthResponse)
  | infer (r : Except InferError InferResponse)
deriving Repr

/-- One server operation: the globals afterwards and the observable
output.  The health and infer handlers declare no global and assign
none, so they leave the state exactly as read. -/
def serverStep (env : Env) (rt : Runtime) (s : ServerState) :
    Op → ServerState × Output
  | .load =>
    let r := load_model env rt s
    (r.state, .load r.thrown)
  | .health => (s, .health (health s))
  | .infer req => (s, .infer (infer env rt s req))

/-- A sequential run of server operations, threading the globals. -/
def serverRun (env : Env) (rt : Runtime) (s : ServerState) :
    List Op → ServerState × List Output
  | [] => (s, [])
  | op :: ops =>
    let so := serverStep env rt s op
    let rest := serverRun env rt so.1 ops
    (rest.1, so.2 :: rest.2)

/-- n sequential calls to load_model (the loader operation the spec
calls ensure_loaded), returning the final globals and the total number
of underlying runtime load attempts performed across the calls. -/
def ensure_loaded_iter (env : Env) (rt : Runtime) :
    ServerState → Nat → ServerState × Nat
  | s, 0 => (s, 0)
  | s, Nat.succ n =>
    let r := load_model env rt s
    let rest := ensure_loaded_iter env rt r.state n
    (rest.1, r.loads + rest.2)

/-- The default environment (no variables set). -/
def envD : Env := {}

/-- The freshly imported module: both globals None. -/
def s0 : ServerState := { tokenizer := none, model := none }

/-- A state after a successful load. -/
def sReady : ServerState := { tokenizer := some 0, model := some 1 }

/-- A concrete runtime whose loads succeed and whose generate output is
recognisable after decoding, used to witness that the dispatch path
reaches generate. -/
def rtOk : Runtime where
  loadTokenizer := fun _ => .ok 0
  loadCausalLM := fun _ => .ok 1
  tokenize := fun _ _ => .ok []
  generate := fun _ _ _ _ _ => .ok [7]
  decode := fun _ out => if out = [7] then .ok "text from generate" else .ok "other"

/-- A concrete runtime whose tokenizer load raises, modelling an
unreachable model path. -/
def rtLoadFail : Runtime where
  loadTokenizer := fun _ => .error "OSError: model path not found"
  loadCausalLM := fun _ => .error "OSError: model path not found"
  tokenize := fun _ _ => .ok []
  generate := fun _ _ _ _ _ => .ok []
  decode := fun _ _ => .ok ""

/-- A concrete runtime that loads fine but whose generate raises,
modelling a single failing generation. -/
def rtGenFail : Runtime where
  loadTokenizer := fun _ => .ok 0
  loadCausalLM := fun _ => .ok 1
  tokenize := fun _ _ => .ok []
  generate := fun _ _ _ _ _ => .error "RuntimeError: CUDA out of memory"
  decode := fun _ _ => .ok ""

/-!
Concurrency model of the dispatch path.  The handler offloads each
generate call with run_in_executor(None, run_inference_sync, ...): the
None selects the event loop default ThreadPoolExecutor, whose worker
count is min(32, cpu_count + 4).  Nothing in the module acquires a
semaphore, a lock or any other admission primitive around the call, so
the only bound on simultaneously running generate calls is the pool
size.  Each in-flight request is modelled by a phase; a step either
dispatches a received request onto a free pool worker (no further guard
exists in the code) or completes a running one.
-/

/-- Worker count of the default ThreadPoolExecutor selected by
run_in_executor(None, ...): min(32, cpu_count + 4). -/
def defaultPoolSize (cpus : Nat) : Nat :=
  min 32 (cpus + 4)

/-- Phase of one in-flight infer request after it passed the readiness
check: waiting for a pool worker, running run_inference_sync (hence
inside generate), or completed. -/
inductive Phase where
  | received
  | running
  | done
deriving DecidableEq, Repr

/-- Number of requests currently executing run_inference_sync on the
pool, i.e. concurrently inside the Model Runtime generate call. -/
def runningCount (ps : List Phase) : Nat :=
  (ps.filter (fun p => p == Phase.running)).length

/-- Interleaving semantics of the dispatch path with pool size W: a
received request starts running whenever a pool worker is free
(runningCount < W) — the code consults no admission primitive beyond
the pool itself — and a running request may complete. -/
inductive DispatchStep (W : Nat) : List Phase → List Phase → Prop
  | dispatch (l r : List Phase) :
      runningCount (l ++ r) < W →
      DispatchStep W (l ++ Phase.received :: r) (l ++ Phase.running :: r)
  | finish (l r : List Phase) :
      DispatchStep W (l ++ Phase.running :: r) (l ++ Phase.done :: r)

/-- Reachability of one configuration of in-flight requests from
another under the dispatch semantics. -/
def DispatchReach (W : Nat) : List Phase → List Phase → Prop :=
  Relation.ReflTransGen (DispatchStep W)

/-! Helper lemmas shared by several claims. -/

/-- When the model global is already set, load_model returns at once:
same state, nothing thrown, no underlying load attempt. -/
theorem loadModel_of_loaded (env : Env) (rt : Runtime) (s : ServerState)
    (h : s.model.isSome = true) :
    load_model env rt s = { state := s, thrown := none, loads := 0 } := by
  simp [load_model, h]

/-- A single load_model call performs at most one underlying load
attempt. -/
theorem loadModel_loads_le (env : Env) (rt : Runtime) (s : ServerState) :
    (load_model env rt s).loads ≤ 1 := by
  unfold load_model
  split
  · simp
  · split
    · simp
    · split <;> simp

/-- When load_model throws, the model global is left exactly as it
was. -/
theorem loadModel_thrown_model (env : Env) (rt : Runtime) (s : ServerState)
    (e : String) :
    (load_model env rt s).thrown = some e →
    (load_model env rt s).state.model = s.model := by
  by_cases hs : s.model.isSome = true
  · rw [loadModel_of_loaded env rt s hs]
    intro _
    rfl
  · unfold load_model
    rw [if_neg hs]
    cases htok : rt.loadTokenizer (modelPath env) with
    | error e2 => intro _; rfl
    | ok tok =>
      cases hcm : rt.loadCausalLM (modelPath env) with
      | error e2 => intro _; rfl
      | ok m => intro h; simp at h

/-- Any number of sequential load_model calls on an already loaded
state leaves the state unchanged and performs no underlying load. -/
theorem ensureIter_of_loaded (env : Env) (rt : Runtime) (s : ServerState)
    (h : s.model.isSome = true) :
    ∀ n, ensure_loaded_iter env rt s n = (s, 0) := by
  intro n
  induction n with
  | zero => rfl
  | succ n ih =>
    simp [ensure_loaded_iter, loadModel_of_loaded env rt s h, ih]

/-- When the model global is set, infer never returns the 503
not-ready error. -/
theorem infer_ne_notReady (env : Env) (rt : Runtime) (s : ServerState)
    (req : InferRequest) (h : s.model.isSome = true) :
    infer env rt s req ≠ .error .notReady := by
  rcases hm : s.model with _ | m
  · rw [hm] at h; simp at h
  · unfold infer
    simp only [hm, Option.isNone_some, Bool.false_eq_true, if_false]
    split <;> simp

/-! Claim C1. -/

/-- C1, counterexample: with the model loaded, the requests with empty
prompt and max_tokens 5, and with prompt hello and max_tokens 0, are
not rejected with a ValidationError; each succeeds with an output that
was decoded from the generate result of the runtime, so generate was
invoked. -/
theorem C1_counterexample :
    infer envD rtOk sReady { prompt := "", max_tokens := 5 } =
      .ok { model := "your-model-folder", output := "text from generate",
            tokens := 3 } ∧
    infer envD rtOk sReady { prompt := "hello", max_tokens := 0 } =
      .ok { model := "your-model-folder", output := "text from generate",
            tokens := 3 } := by
  exact ⟨rfl, rfl⟩

/-- C1, amended: infer performs no prompt or max_tokens validation.
Whenever the model is loaded, a request with empty prompt or
nonpositive max_tokens is dispatched to run_inference_sync exactly like
a valid one, and the outcome is whatever the dispatch yields; no
ValidationError path exists in the handler. -/
theorem C1_no_validation (env : Env) (rt : Runtime) (s : ServerState)
    (req : InferRequest) (hm : s.model.isSome = true)
    (_hbad : req.prompt = "" ∨ req.max_tokens ≤ 0) :
    infer env rt s req =
      match run_inference_sync rt s req.prompt req.max_tokens req.temperature with
      | .error e => .error (.compute e)
      | .ok out =>
        .ok { model := env.MODEL_NAME, output := out,
              tokens := (pySplit out).length } := by
  rcases hs : s.model with _ | m
  · rw [hs] at hm; simp at hm
  · unfold infer
    rw [hs]
    rfl

/-- C1, witness for the amended theorem at the concrete invalid request
with prompt hello and max_tokens 0. -/
theorem C1_no_validation_witness :
    sReady.model.isSome = true ∧
    (("hello" : String) = "" ∨ (0 : Int) ≤ 0) ∧
    infer envD rtOk sReady { prompt := "hello", max_tokens := 0 } =
      .ok { model := "your-model-folder", output := "text from generate",
            tokens := 3 } := by
  refine ⟨rfl, Or.inr (le_refl 0), ?_⟩
  rw [C1_no_validation envD rtOk sReady { prompt := "hello", max_tokens := 0 }
    rfl (Or.inr (le_refl 0))]
  rfl

/-! Claim C2. -/

/-- C2, counterexample: health returns the same constant success value
on the unloaded state and on a loaded state; in particular a caller
cannot read the readiness lifecycle from it, contrary to the claim that
the returned status equals the current readiness state. -/
theorem C2_counterexample :
    health s0 = { ok := true } ∧
    health sReady = { ok := true } ∧
    health s0 = health sReady := by
  exact ⟨rfl, rfl, rfl⟩

/-- C2, amended: the health handler returns the constant value with ok
set to true, independent of the server state; the response carries no
readiness information at all. -/
theorem C2_health_constant (s : ServerState) :
    health s = { ok := true } := rfl

/-! Claim C3. -/

/-- C3, counterexample: on an unloaded state with a runtime whose load
raises, the exception escapes load_model (thrown is not none) and the
resulting state is bit-for-bit the initial one: no Failed readiness
state and no recorded error exist, because ServerState has no such
field. -/
theorem C3_counterexample :
    load_model envD rtLoadFail s0 =
      { state := s0, thrown := some "OSError: model path not found",
        loads := 1 } := rfl

/-- C3, amended: a load failure is not caught at the loader boundary:
the exception propagates out of load_model and no error is recorded in
the server state — the model global simply keeps its previous value
(None when the load was a first attempt), which is the only, implicit,
failure marker.  The call itself performs at most one underlying load
attempt, so no retry happens inside load_model. -/
theorem C3_load_failure (env : Env) (rt : Runtime) (s : ServerState) :
    (load_model env rt s).loads ≤ 1 ∧
    ∀ e, (load_model env rt s).thrown = some e →
      (load_model env rt s).state.model = s.model := by
  exact ⟨loadModel_loads_le env rt s,
    fun e => loadModel_thrown_model env rt s e⟩

/-- C3, witness for the amended theorem on the failing runtime and the
fresh state. -/
theorem C3_load_failure_witness :
    (load_model envD rtLoadFail s0).loads ≤ 1 ∧
    (load_model envD rtLoadFail s0).state.model = s0.model := by
  refine ⟨(C3_load_failure envD rtLoadFail s0).1, ?_⟩
  exact (C3_load_failure envD rtLoadFail s0).2
    "OSError: model path not found" rfl

/-! Claim C4. -/

/-- C4: while the model global is None (never loaded, or the load
failed and left it None), infer returns the 503 not-ready error for
every request content and for every runtime, before any runtime call is
made — the result does not depend on the runtime at all. -/
theorem C4_not_ready (env : Env) (rt : Runtime) (s : ServerState)
    (req : InferRequest) (h : s.model = none) :
    infer env rt s req = .error .notReady := by
  unfold infer
  rw [h]
  rfl

/-- C4, witness on the fresh state and a well-formed request. -/
theorem C4_not_ready_witness :
    s0.model = none ∧
    infer envD rtOk s0 { prompt := "hello", max_tokens := 5 } =
      .error .notReady :=
  ⟨rfl, C4_not_ready envD rtOk s0 { prompt := "hello", max_tokens := 5 } rfl⟩

/-! Claim C5. -/

/-- C5: every successful infer response carries the configured model
name, carries as output exactly the text produced by the dispatched
run_inference_sync call, and its meta tokens field equals the length of
the Python whitespace split of that output, i.e. the number of maximal
non-whitespace substrings. -/
theorem C5_success_shape (env : Env) (rt : Runtime) (s : ServerState)
    (req : InferRequest) (resp : InferResponse)
    (h : infer env rt s req = .ok resp) :
    resp.model = env.MODEL_NAME ∧
    resp.tokens = (pySplit resp.output).length ∧
    run_inference_sync rt s req.prompt req.max_tokens req.temperature =
      .ok resp.output := by
  unfold infer at h
  split at h
  · simp at h
  · revert h
    cases hr : run_inference_sync rt s req.prompt req.max_tokens req.temperature with
    | error e => intro h; simp at h
    | ok out =>
      intro h
      rw [Except.ok.injEq] at h
      subst h
      exact ⟨rfl, rfl, rfl⟩

/-- C5, witness at the spec test request with prompt hello and
max_tokens 5 on a loaded server: the output has three whitespace
tokens and meta tokens is 3. -/
theorem C5_success_shape_witness :
    (InferResponse.mk "your-model-folder" "text from generate" 3).model =
      envD.MODEL_NAME ∧
    (InferResponse.mk "your-model-folder" "text from generate" 3).tokens =
      (pySplit "text from generate").length ∧
    run_inference_sync rtOk sReady "hello" 5 0 = .ok "text from generate" := by
  exact C5_success_shape envD rtOk sReady { prompt := "hello", max_tokens := 5 }
    (InferResponse.mk "your-model-folder" "text from generate" 3) rfl

/-! Claim C6. -/

/-- C6: with a runtime whose loads succeed, the first load_model call
leaves the model global set; any call on a state whose model global is
set returns at once with no underlying load attempt; and any number of
further sequential calls keeps the state of the first call and performs
at most one underlying load attempt in total. -/
theorem C6_ensure_loaded_idempotent (env : Env) (rt : Runtime)
    (s : ServerState) (a b : Handle)
    (hT : rt.loadTokenizer (modelPath env) = .ok a)
    (hM : rt.loadCausalLM (modelPath env) = .ok b) :
    (load_model env rt s).state.model.isSome = true ∧
    (∀ s2, s2.model.isSome = true →
      load_model env rt s2 = { state := s2, thrown := none, loads := 0 }) ∧
    ∀ n, (ensure_loaded_iter env rt s (n + 1)).1 = (load_model env rt s).state ∧
      (ensure_loaded_iter env rt s (n + 1)).2 ≤ 1 := by
  have hstate : (load_model env rt s).state.model.isSome = true := by
    by_cases hs : s.model.isSome = true
    · rw [loadModel_of_loaded env rt s hs]; exact hs
    · unfold load_model
      rw [if_neg hs, hT, hM]
      rfl
  refine ⟨hstate, fun s2 h2 => loadModel_of_loaded env rt s2 h2, fun n => ?_⟩
  have hrest := ensureIter_of_loaded env rt (load_model env rt s).state hstate n
  constructor
  · simp only [ensure_loaded_iter]
    rw [hrest]
  · simp only [ensure_loaded_iter]
    rw [hrest]
    simpa using loadModel_loads_le env rt s

/-- C6, witness: three sequential loader calls on the fresh state with
a succeeding runtime end loaded, in the state of the first call, with
at most one underlying load attempt in total. -/
theorem C6_ensure_loaded_idempotent_witness :
    (load_model envD rtOk s0).state.model.isSome = true ∧
    (ensure_loaded_iter envD rtOk s0 3).1 = (load_model envD rtOk s0).state ∧
    (ensure_loaded_iter envD rtOk s0 3).2 ≤ 1 := by
  have h := C6_ensure_loaded_idempotent envD rtOk s0 0 1 rfl rfl
  exact ⟨h.1, (h.2.2 2).1, (h.2.2 2).2⟩

/-! Claim C7. -/

/-- C7: when the model is loaded and the dispatched run_inference_sync
call fails, the infer operation surfaces exactly that failure as a
compute error for that call, the server state after the call is the
very state before it, and therefore any subsequent sequence of
operations behaves exactly as it would have without the failed call. -/
theorem C7_compute_error_frame (env : Env) (rt : Runtime) (s : ServerState)
    (req : InferRequest) (e : String) (ops : List Op)
    (hm : s.model.isSome = true)
    (hrun : run_inference_sync rt s req.prompt req.max_tokens req.temperature =
      .error e) :
    (serverStep env rt s (.infer req)).2 = .infer (.error (.compute e)) ∧
    (serverStep env rt s (.infer req)).1 = s ∧
    serverRun env rt (serverStep env rt s (.infer req)).1 ops =
      serverRun env rt s ops := by
  refine ⟨?_, rfl, rfl⟩
  show Output.infer (infer env rt s req) = Output.infer (.error (.compute e))
  rcases hs : s.model with _ | m
  · rw [hs] at hm; simp at hm
  · unfold infer
    rw [hs, hrun]
    rfl

/-- C7, witness: on a loaded server whose runtime generate raises, the
infer call surfaces the compute error, the state is unchanged, and a
subsequent call sequence is unaffected. -/
theorem C7_compute_error_frame_witness :
    (serverStep envD rtGenFail sReady (.infer { prompt := "hi" })).2 =
      .infer (.error (.compute "RuntimeError: CUDA out of memory")) ∧
    (serverStep envD rtGenFail sReady (.infer { prompt := "hi" })).1 = sReady ∧
    serverRun envD rtGenFail
      (serverStep envD rtGenFail sReady (.infer { prompt := "hi" })).1
      [Op.infer { prompt := "hello" }] =
      serverRun envD rtGenFail sReady [Op.infer { prompt := "hello" }] :=
  C7_compute_error_frame envD rtGenFail sReady { prompt := "hi" }
    "RuntimeError: CUDA out of memory" [Op.infer { prompt := "hello" }]
    rfl rfl

/-! Claim C8. -/

/-- C8, counterexample: under the dispatch semantics of the source —
run_in_executor on the default pool, whose size on a one-cpu host is
min(32, 1 + 4) = 5, with no admission primitive consulted — a
configuration in which two requests execute generate simultaneously is
reachable from two pending requests, contradicting mutual exclusion at
capacity one. -/
theorem C8_counterexample :
    DispatchReach (defaultPoolSize 1) [Phase.received, Phase.received]
      [Phase.running, Phase.running] ∧
    1 < runningCount [Phase.running, Phase.running] := by
  constructor
  · have h1 : DispatchStep (defaultPoolSize 1)
        ([] ++ Phase.received :: [Phase.received])
        ([] ++ Phase.running :: [Phase.received]) :=
      DispatchStep.dispatch [] [Phase.received] (by decide)
    have h2 : DispatchStep (defaultPoolSize 1)
        ([Phase.running] ++ Phase.received :: [])
        ([Phase.running] ++ Phase.running :: []) :=
      DispatchStep.dispatch [Phase.running] [] (by decide)
    exact Relation.ReflTransGen.tail
      (Relation.ReflTransGen.tail Relation.ReflTransGen.refl h1) h2
  · decide

/-- C8, amended: no counting admission primitive mediates the generate
calls; the only bound is the default executor pool itself, whose size
min(32, cpus + 4) is at least two for every cpu count, and a state with
two generate calls in flight at once is reachable on every host. -/
theorem C8_no_admission (cpus : Nat) :
    2 ≤ defaultPoolSize cpus ∧
    DispatchReach (defaultPoolSize cpus) [Phase.received, Phase.received]
      [Phase.running, Phase.running] ∧
    1 < runningCount [Phase.running, Phase.running] := by
  have hW : 2 ≤ defaultPoolSize cpus := by
    unfold defaultPoolSize
    omega
  refine ⟨hW, ?_, by decide⟩
  have h1 : DispatchStep (defaultPoolSize cpus)
      ([] ++ Phase.received :: [Phase.received])
      ([] ++ Phase.running :: [Phase.received]) :=
    DispatchStep.dispatch [] [Phase.received]
      (show 0 < defaultPoolSize cpus by omega)
  have h2 : DispatchStep (defaultPoolSize cpus)
      ([Phase.running] ++ Phase.received :: [])
      ([Phase.running] ++ Phase.running :: []) :=
    DispatchStep.dispatch [Phase.running] []
      (show 1 < defaultPoolSize cpus by omega)
  exact Relation.ReflTransGen.tail
    (Relation.ReflTransGen.tail Relation.ReflTransGen.refl h1) h2

/-! Claim C9. -/

/-- C9: once the model global is set, every sequence of server
operations — health calls, infer calls, and further loader calls —
leaves the state exactly as it is, and no operation in the sequence
ever answers the 503 not-ready error. -/
theorem C9_ready_preserved (env : Env) (rt : Runtime) (s : ServerState)
    (ops : List Op) (h : s.model.isSome = true) :
    (serverRun env rt s ops).1 = s ∧
    ∀ o ∈ (serverRun env rt s ops).2, o ≠ Output.infer (.error .notReady) := by
  induction ops with
  | nil =>
    refine ⟨rfl, ?_⟩
    intro o ho
    simp [serverRun] at ho
  | cons op ops ih =>
    have hstep : (serverStep env rt s op).1 = s := by
      cases op with
      | load =>
        show (load_model env rt s).state = s
        rw [loadModel_of_loaded env rt s h]
      | health => rfl
      | infer req => rfl
    have hout : (serverStep env rt s op).2 ≠ Output.infer (.error .notReady) := by
      cases op with
      | load => simp [serverStep]
      | health => simp [serverStep]
      | infer req =>
        show Output.infer (infer env rt s req) ≠ Output.infer (.error .notReady)
        intro hc
        apply infer_ne_notReady env rt s req h
        injection hc
    have hrun : serverRun env rt s (op :: ops) =
        ((serverRun env rt s ops).1,
         (serverStep env rt s op).2 :: (serverRun env rt s ops).2) := by
      simp only [serverRun]
      rw [hstep]
    rw [hrun]
    refine ⟨ih.1, ?_⟩
    intro o ho
    rcases List.mem_cons.mp ho with hh | ht
    · rw [hh]; exact hout
    · exact ih.2 o ht

/-- C9, witness: on a loaded server, a health call, a loader call and
an infer call leave the state untouched and none of them answers the
503 not-ready error. -/
theorem C9_ready_preserved_witness :
    (serverRun envD rtOk sReady
      [Op.health, Op.load, Op.infer { prompt := "hello", max_tokens := 5 }]).1 =
      sReady ∧
    ∀ o ∈ (serverRun envD rtOk sReady
      [Op.health, Op.load, Op.infer { prompt := "hello", max_tokens := 5 }]).2,
      o ≠ Output.infer (.error .notReady) :=
  C9_ready_preserved envD rtOk sReady
    [Op.health, Op.load, Op.infer { prompt := "hello", max_tokens := 5 }] rfl

/-! Claim C10. -/

/-- C10: the generate call of a dispatched inference receives the
do_sample flag exactly when the temperature is strictly positive — the
result of the dispatch is the generate call at flag decide(t > 0),
which is true iff 0 < t — and the request default temperature 0 yields
the flag false, i.e. greedy decoding. -/
theorem C10_sampling_iff (rt : Runtime) (s : ServerState) (tok m : Handle)
    (inputs : Tokens) (prompt : String) (mt : Int) (t : ℚ)
    (htok : s.tokenizer = some tok) (hm : s.model = some m)
    (htk : rt.tokenize tok prompt = .ok inputs) :
    (run_inference_sync rt s prompt mt t =
      match rt.generate m inputs mt (decide (t > 0)) t with
      | .error e => .error e
      | .ok out => rt.decode tok out) ∧
    (decide (t > 0) = true ↔ 0 < t) ∧
    ({ prompt := prompt : InferRequest }.temperature = 0 ∧
      decide (({ prompt := prompt : InferRequest }.temperature : ℚ) > 0) = false) := by
  refine ⟨?_, by simp, rfl, ?_⟩
  · have h1 : run_inference_sync rt s prompt mt t =
        match rt.tokenize tok prompt with
        | .error e => .error e
        | .ok inputs2 =>
          match rt.generate m inputs2 mt (decide (t > 0)) t with
          | .error e => .error e
          | .ok out => rt.decode tok out := by
      unfold run_inference_sync
      rw [htok, hm]
    rw [h1, htk]
  · show decide ((0 : ℚ) > 0) = false
    simp

/-- C10, witness at temperature 0 on the loaded server: the dispatch
equals the generate call with the do_sample flag decide(0 > 0), which
is false. -/
theorem C10_sampling_iff_witness :
    (run_inference_sync rtOk sReady "hi" 5 0 =
      match rtOk.generate 1 [] 5 (decide ((0 : ℚ) > 0)) 0 with
      | .error e => .error e
      | .ok out => rtOk.decode 0 out) ∧
    (decide ((0 : ℚ) > 0) = true ↔ (0 : ℚ) < 0) ∧
    ({ prompt := "hi" : InferRequest }.temperature = 0 ∧
      decide (({ prompt := "hi" : InferRequest }.temperature : ℚ) > 0) = false) :=
  C10_sampling_iff rtOk sReady 0 1 [] "hi" 5 0 rfl rfl rfl

end ModelServer
